import Mathlib

/-!
Shallow embedding of the surveysim repository (desi-bgs/surveysim):
the nightly observability planner `py/surveysim/afternoonplan.py`
(class `surveyPlan`) and the weather simulator `py/surveysim/weather.py`
(class `Weather`).

Conventions of the embedding:
  * Python floats are modelled as `ℚ`; machine integers as `ℤ`.
  * The external ephemeris helpers `mjd2lst` and `radec2altaz`
    (from `surveysim.utils`, outside the core per the specification)
    are passed as function parameters.
  * The Python attributes of `surveyPlan` holding the night-scoped
    dark-window state become the structure `PlanState`.  The attributes
    `LST_dark_begin` and `LST_dark_end`, which the source creates
    dynamically only inside the final `else` branch of `getDarkTimes`
    (they are not declared in `__init__`), are modelled as `Option ℚ`
    fields that start out `none`.
  * Branch conditions are transcribed verbatim from the source,
    including the places where the source compares
    `day_stats[MJDmoonrise]` with itself.
-/

namespace Surveysim

/-- Brightness classification strings used by `afternoonplan.py`. -/
inductive Brightness
  | DARK
  | GREY
  | BRIGHT
deriving DecidableEq, Repr

/-- Night statistics record (`day_stats`), externally supplied:
moon rise and set MJD (negative sentinel when the event does not occur),
evening and morning twilight MJD, local midnight MJD, moon coordinates
and illuminated fraction. -/
structure DayStats where
  MJDmoonrise : ℚ
  MJDmoonset : ℚ
  MJDetwi : ℚ
  MJDmtwi : ℚ
  MJDmidnight : ℚ
  MoonRA : ℚ
  MoonDEC : ℚ
  MoonFrac : ℚ
deriving DecidableEq, Repr

/-- Night-scoped dark-window state of `surveyPlan`: the two dark LST
intervals (sentinel -1.0 meaning absent), the brightness class of the
rest of the night (`moonUp`), and the two dynamically created attributes
written only by the final `else` branch of `getDarkTimes`. -/
structure PlanState where
  moonUp : Brightness
  LST_dark1_begin : ℚ
  LST_dark1_end : ℚ
  LST_dark2_begin : ℚ
  LST_dark2_end : ℚ
  LST_dark_begin : Option ℚ
  LST_dark_end : Option ℚ
deriving DecidableEq, Repr

/-- Dummy values set at the end of `surveyPlan.__init__`: brightness
BRIGHT, all four interval bounds at the -1.0 sentinel; the misspelled
attributes do not exist yet. -/
def initialPlanState : PlanState where
  moonUp := Brightness.BRIGHT
  LST_dark1_begin := -1
  LST_dark1_end := -1
  LST_dark2_begin := -1
  LST_dark2_end := -1
  LST_dark_begin := none
  LST_dark_end := none

/-- Transcription of `surveyPlan.isItDark(lst)`: DARK when `lst` lies
strictly inside one of the two dark intervals, where an interval counts
only if both its bounds are strictly positive; otherwise the night's
`moonUp` classification. -/
def isItDark (s : PlanState) (lst : ℚ) : Brightness :=
  if (s.LST_dark1_begin > 0 ∧ s.LST_dark1_begin < lst ∧
      s.LST_dark1_end > 0 ∧ lst < s.LST_dark1_end) ∨
     (s.LST_dark2_begin > 0 ∧ s.LST_dark2_begin < lst ∧
      s.LST_dark2_end > 0 ∧ lst < s.LST_dark2_end) then
    Brightness.DARK
  else
    s.moonUp

/-- Transcription of `surveyPlan.getDarkTimes(day_stats)`.  The branch
conditions are copied verbatim from the source: the first branch tests
`MJDmoonrise > 0.0 and MJDmoonrise > 0.0` (the same field twice), and the
second and third `elif` branches test `MJDmoonrise > 0.0 and
MJDmoonrise < 0.0` resp. `MJDmoonrise < 0.0 and MJDmoonrise > 0.0`,
which are unsatisfiable.  The final `else` branch assigns the
dynamically created attributes `LST_dark_begin` and `LST_dark_end`
instead of `LST_dark1_begin` and `LST_dark1_end`.  Afterwards the moon
altitude at local midnight classifies the rest of the night as GREY when
`MoonFrac < 0.2` or `alt * MoonFrac < 12.0`, else BRIGHT. -/
def getDarkTimes (mjd2lst : ℚ → ℚ) (radec2altaz : ℚ → ℚ → ℚ → ℚ × ℚ)
    (s : PlanState) (d : DayStats) : PlanState :=
  let s0 : PlanState := { s with LST_dark2_begin := -1, LST_dark2_end := -1 }
  let s1 : PlanState :=
    if d.MJDmoonrise > 0 ∧ d.MJDmoonrise > 0 then
      -- source comment: Moon rises and sets tonight
      if d.MJDmoonrise < d.MJDetwi then
        -- source comment: Moon is up by the end of twilight
        if d.MJDmoonset < d.MJDmtwi then
          -- source comment: Moon sets during the night
          { s0 with LST_dark1_begin := mjd2lst d.MJDmoonset,
                    LST_dark1_end := mjd2lst d.MJDmtwi }
        else
          -- source comment: Moon is always up
          { s0 with LST_dark1_begin := -1, LST_dark1_end := -1 }
      else
        -- source comment: Moon is down at the end of twilight
        if d.MJDmoonrise < d.MJDmtwi then
          if d.MJDmoonset < d.MJDmtwi then
            -- source comment: Second portion of dark time
            { s0 with LST_dark1_begin := mjd2lst d.MJDetwi,
                      LST_dark1_end := mjd2lst d.MJDmoonrise,
                      LST_dark2_begin := mjd2lst d.MJDmoonset,
                      LST_dark2_end := mjd2lst d.MJDmtwi }
          else
            { s0 with LST_dark1_begin := mjd2lst d.MJDetwi,
                      LST_dark1_end := mjd2lst d.MJDmoonrise }
        else
          { s0 with LST_dark1_begin := mjd2lst d.MJDetwi,
                    LST_dark1_end := mjd2lst d.MJDmtwi }
    else if d.MJDmoonrise > 0 ∧ d.MJDmoonrise < 0 then
      -- source comment: Moon rises, but does not set (condition verbatim)
      if d.MJDmoonrise < d.MJDetwi then
        -- source comment: Moon is already up at end of twilight
        { s0 with LST_dark1_begin := -1, LST_dark1_end := -1 }
      else
        -- note: the source assigns the raw MJDetwi here, without mjd2lst
        { s0 with LST_dark1_begin := d.MJDetwi,
                  LST_dark1_end := mjd2lst d.MJDmoonrise }
    else if d.MJDmoonrise < 0 ∧ d.MJDmoonrise > 0 then
      -- source comment: Moon does not rise, but sets (condition verbatim)
      if d.MJDmoonset > 0 ∧ d.MJDmoonset < d.MJDmtwi then
        { s0 with LST_dark1_begin := mjd2lst d.MJDmoonset,
                  LST_dark1_end := mjd2lst d.MJDmtwi }
      else
        { s0 with LST_dark1_begin := -1, LST_dark1_end := -1 }
    else
      -- source comment: Moon does not rise or set during the night
      { s0 with LST_dark_begin := some (mjd2lst d.MJDetwi),
                LST_dark_end := some (mjd2lst d.MJDmtwi) }
  let alt : ℚ := (radec2altaz d.MoonRA d.MoonDEC (mjd2lst d.MJDmidnight)).1
  if d.MoonFrac < 0.2 ∨ alt * d.MoonFrac < 12 then
    { s1 with moonUp := Brightness.GREY }
  else
    { s1 with moonUp := Brightness.BRIGHT }

/-- One retained tile of the catalog, with the per-tile columns that
`surveyPlan.afternoonPlan` reads (rows with `IN_DESI == 1`, after the
derived columns of `__init__` have been computed). -/
structure Tile where
  tileID : ℤ
  RA : ℚ
  DEC : ℚ
  Ebmv : ℚ
  LSTmin : ℚ
  LSTmax : ℚ
  maxExpLen : ℚ
  priority : ℤ
  status : ℤ
  program : String
  obsconds : ℤ
deriving DecidableEq, Repr

/-- One iteration of the status-update loop of `afternoonPlan`:
`self.status[np.where(self.tileID == TILEID)] = STATUS` overwrites the
status of every tile whose id equals the observed id (a no-op when no
tile matches). -/
def applyObs (tiles : List Tile) (p : ℤ × ℤ) : List Tile :=
  tiles.map fun t => if t.tileID = p.1 then { t with status := p.2 } else t

/-- The status-update loop of `afternoonPlan`, applied to the
observation log entries in list order. -/
def updateStatus (tiles : List Tile) (obs : List (ℤ × ℤ)) : List Tile :=
  obs.foldl applyObs tiles

/-- Wrap step applied to the derived LST bounds in `surveyPlan.__init__`:
add 360 when negative, subtract 360 when strictly above 360, otherwise
leave unchanged. -/
def wrapLST (x : ℚ) : ℚ :=
  if x < 0 then x + 360 else if x > 360 then x - 360 else x

/-- Derived column `LSTmin = RA + HA - 15`, wrapped. -/
def tileLSTmin (ra ha : ℚ) : ℚ := wrapLST (ra + ha - 15)

/-- Derived column `LSTmax = RA + HA + 15`, wrapped. -/
def tileLSTmax (ra ha : ℚ) : ℚ := wrapLST (ra + ha + 15)

/-- Selection condition of the plan loop of `afternoonPlan`: status
below 2, and either a DARK-program tile whose two boundary LSTs are both
DARK, or a non-DARK-program tile at least one of whose boundary LSTs is
not DARK. -/
def planCond (s : PlanState) (t : Tile) : Prop :=
  t.status < 2 ∧
  ((isItDark s t.LSTmin = Brightness.DARK ∧
    isItDark s t.LSTmax = Brightness.DARK ∧ t.program = "DARK") ∨
   ((isItDark s t.LSTmin ≠ Brightness.DARK ∨
     isItDark s t.LSTmax ≠ Brightness.DARK) ∧ t.program ≠ "DARK"))

instance (s : PlanState) (t : Tile) : Decidable (planCond s t) := by
  unfold planCond; infer_instance

/-- Result of one call to `afternoonPlan`: the mutated night state, the
mutated tile catalog, the sorted plan list written to the output file,
and the returned count `tilesTODO = len(planList)`. -/
structure PlanResult where
  state : PlanState
  tiles : List Tile
  plan : List Tile
  tilesTODO : ℕ
deriving Repr

/-- Transcription of `surveyPlan.afternoonPlan(day_stats,
tiles_observed)`: apply the status updates, recompute the dark windows,
filter the catalog through the selection condition, and sort the result
by descending priority (a stable sort, as `sorted` with `reverse=True`
in the source).  Writing the FITS file is serialization, outside the
core; the plan list and `tilesTODO` capture its contents. -/
def afternoonPlan (mjd2lst : ℚ → ℚ) (radec2altaz : ℚ → ℚ → ℚ → ℚ × ℚ)
    (s : PlanState) (tiles : List Tile) (d : DayStats)
    (obs : List (ℤ × ℤ)) : PlanResult :=
  let tiles1 := updateStatus tiles obs
  let s1 := getDarkTimes mjd2lst radec2altaz s d
  let planList0 := tiles1.filter fun t => decide (planCond s1 t)
  let planList := planList0.mergeSort fun a b => decide (b.priority ≤ a.priority)
  { state := s1, tiles := tiles1, plan := planList, tilesTODO := planList.length }

/-! Embedding of `weather.py` (class `Weather`).  The tabulated time
series becomes a list of rows; the random sampling of the columns is
outside the scope of the claims, so rows are arbitrary values of the row
type.  Queries operate on the `mjd` of the first row (the source reads
`self._table[mjd][0]`) and on the `steps_per_day` metadata. -/

/-- One row of the weather table: MJD timestamp, dome-open flag,
seeing, transparency. -/
structure WRow where
  mjd : ℚ
  isOpen : Bool
  seeing : ℚ
  transparency : ℚ
deriving DecidableEq, Repr

/-- Error raised by `Weather.__init__` in generate mode. -/
inductive WeatherInitError
  | badDateRange
  | badTimeStep
deriving DecidableEq, Repr

/-- Tolerance of `np.allclose(x, 1.)` with the numpy defaults
`rtol = 1e-5`, `atol = 1e-8`: the check is `|x - 1| <= atol + rtol * 1`. -/
def allcloseTol : ℚ := 1e-8 + 1e-5

/-- Validation part of `Weather.__init__` in generate mode
(`weather.py` lines 70 to 79): dates are modelled as integer day counts
so that `(stop_date - start_date).days` is a subtraction; `time_step` is
in days, so `1 day / time_step` is `1 / time_step`, and `round` is the
half-up rounding of that quotient.  On success the scalar fields
`num_nights` and `steps_per_day` of the constructed object are
returned. -/
def weatherInit (start_date stop_date : ℤ) (time_step : ℚ) :
    Except WeatherInitError (ℤ × ℤ) :=
  let num_nights := stop_date - start_date
  if num_nights ≤ 0 then
    Except.error WeatherInitError.badDateRange
  else
    let steps_per_day : ℤ := round (1 / time_step)
    if ¬ |(steps_per_day : ℚ) * time_step - 1| ≤ allcloseTol then
      Except.error WeatherInitError.badTimeStep
    else
      Except.ok (num_nights, steps_per_day)

/-- MJD of the first tabulated row, `self._table[mjd][0]`. -/
def tableMJD0 (table : List WRow) : ℚ :=
  ((table.head?).map WRow.mjd).getD 0

/-- Row offset computed by `Weather.get`:
`np.floor((time.mjd - mjd0) * steps_per_day + 0.5).astype(int)`. -/
def weatherOffset (mjd0 : ℚ) (steps_per_day : ℤ) (t : ℚ) : ℤ :=
  ⌊(t - mjd0) * (steps_per_day : ℚ) + 1/2⌋

/-- Transcription of `Weather.get` for a scalar query time: compute the
offset; raise (model: `Except.error`) when the offset is below 0 or
above `len(self._table)`; otherwise index the table.  The indexing
itself is partial in the source (`self._table[offset]` raises past the
end), which the `Option` result records: `Except.ok none` means the
range check passed yet no row exists at the offset. -/
def weatherGet (table : List WRow) (steps_per_day : ℤ) (t : ℚ) :
    Except Unit (Option WRow) :=
  let off := weatherOffset (tableMJD0 table) steps_per_day t
  if off < 0 ∨ off > table.length then
    Except.error ()
  else
    Except.ok (table.get? off.toNat)

/-- Transcription of `Weather.get` for a batch of query times: the
source checks `np.any(offset < 0) or np.any(offset > len(self._table))`
over the whole offset array before indexing, so one bad time fails the
entire batch; otherwise the rows are returned in parallel. -/
def weatherGetMany (table : List WRow) (steps_per_day : ℤ) (ts : List ℚ) :
    Except Unit (List (Option WRow)) :=
  if ts.any (fun t =>
      decide (weatherOffset (tableMJD0 table) steps_per_day t < 0) ||
      decide (weatherOffset (tableMJD0 table) steps_per_day t > table.length)) then
    Except.error ()
  else
    Except.ok (ts.map fun t =>
      table.get? (weatherOffset (tableMJD0 table) steps_per_day t).toNat)

/-! Helper definitions and lemmas about the status-update loop. -/

/-- Status of a tile with id `id0` and current status `st0` after the
observation list `obs` has been folded over it in list order. -/
def finalStatus (id0 st0 : ℤ) (obs : List (ℤ × ℤ)) : ℤ :=
  obs.foldl (fun st p => if id0 = p.1 then p.2 else st) st0

lemma finalStatus_nil (id0 st0 : ℤ) : finalStatus id0 st0 [] = st0 := rfl

lemma finalStatus_cons (id0 st0 : ℤ) (p : ℤ × ℤ) (obs : List (ℤ × ℤ)) :
    finalStatus id0 st0 (p :: obs) =
      finalStatus id0 (if id0 = p.1 then p.2 else st0) obs := rfl

/-- The status-update loop acts tile-wise: it is the map replacing every
tile status with `finalStatus` of that tile. -/
lemma updateStatus_eq_map (tiles : List Tile) (obs : List (ℤ × ℤ)) :
    updateStatus tiles obs =
      tiles.map fun t => { t with status := finalStatus t.tileID t.status obs } := by
  induction obs generalizing tiles with
  | nil =>
    have h : (fun t : Tile => { t with status := finalStatus t.tileID t.status [] })
        = fun t : Tile => t := by
      funext t; rfl
    rw [updateStatus, List.foldl_nil, h]
    simp
  | cons p rest ih =>
    have hstep : updateStatus tiles (p :: rest) = updateStatus (applyObs tiles p) rest := rfl
    rw [hstep, ih, applyObs, List.map_map]
    congr 1
    funext t
    by_cases h : t.tileID = p.1 <;>
      simp [Function.comp, h, finalStatus_cons]

lemma updateStatus_length (tiles : List Tile) (obs : List (ℤ × ℤ)) :
    (updateStatus tiles obs).length = tiles.length := by
  rw [updateStatus_eq_map, List.length_map]

lemma updateStatus_get? (tiles : List Tile) (obs : List (ℤ × ℤ)) (i : ℕ) :
    (updateStatus tiles obs).get? i =
      (tiles.get? i).map fun t =>
        { t with status := finalStatus t.tileID t.status obs } := by
  rw [updateStatus_eq_map, List.get?_map]

/-- The fold computing `finalStatus` keeps the last matching write: it
equals the second component of the last observation entry whose id
matches, defaulting to the original status. -/
lemma finalStatus_eq_reverse_find (id0 st0 : ℤ) (obs : List (ℤ × ℤ)) :
    finalStatus id0 st0 obs =
      ((obs.reverse.find? fun q => decide (id0 = q.1)).map Prod.snd).getD st0 := by
  induction obs generalizing st0 with
  | nil => rfl
  | cons p rest ih =>
    rw [finalStatus_cons, ih, List.reverse_cons, List.find?_append]
    cases hfind : rest.reverse.find? fun q => decide (id0 = q.1) with
    | some q => simp [hfind]
    | none =>
      by_cases h : id0 = p.1 <;> simp [hfind, List.find?, h]

/-- Every status produced by the fold is the original one or comes from
one of the observation entries. -/
lemma finalStatus_mem (id0 st0 : ℤ) (obs : List (ℤ × ℤ)) :
    finalStatus id0 st0 obs = st0 ∨ ∃ p ∈ obs, finalStatus id0 st0 obs = p.2 := by
  induction obs generalizing st0 with
  | nil => left; rfl
  | cons p rest ih =>
    rw [finalStatus_cons]
    rcases ih (if id0 = p.1 then p.2 else st0) with h | ⟨q, hq, h⟩
    · by_cases hc : id0 = p.1
      · right
        exact ⟨p, List.mem_cons_self p rest, by rw [h, if_pos hc]⟩
      · left
        rw [h, if_neg hc]
    · right
      exact ⟨q, List.mem_cons_of_mem p hq, h⟩

/-- Sample DARK-program tile with id 1 and the given status, used to
instantiate the general theorems at concrete inputs. -/
def tileDark (st : ℤ) : Tile where
  tileID := 1
  RA := 0
  DEC := 0
  Ebmv := 0
  LSTmin := 3
  LSTmax := 4
  maxExpLen := 0
  priority := 1
  status := st
  program := "DARK"
  obsconds := 0

/-- C6: the status-update loop of `afternoonPlan` leaves the catalog
length unchanged and maps each tile to itself with its status replaced
by the second component of the last observation entry (in list order)
whose id matches, defaulting to the previous status; in particular an
entry matching no tile changes nothing and raises no error, and when
several entries share an id the last one wins. -/
theorem updateStatus_last_write_wins (tiles : List Tile) (obs : List (ℤ × ℤ)) :
    (updateStatus tiles obs).length = tiles.length ∧
    ∀ i : ℕ, (updateStatus tiles obs).get? i =
      (tiles.get? i).map fun t =>
        { t with
          status := Option.getD
                      (Option.map Prod.snd
                        (obs.reverse.find? fun q => decide (t.tileID = q.1)))
                      t.status } := by
  refine ⟨updateStatus_length tiles obs, fun i => ?_⟩
  rw [updateStatus_get?]
  congr 1
  funext t
  rw [finalStatus_eq_reverse_find]

/-- C3 counterexample: a tile with status 2 receives a logged status 0,
so after the update its status has strictly decreased. -/
theorem updateStatus_status_can_decrease :
    (updateStatus [tileDark 2] [(1, 0)]).map Tile.status = [0] ∧ ¬ ((2:ℤ) ≤ 0) := by
  constructor
  · rfl
  · decide

/-- C3 amended: the status-update loop overwrites each matched tile
status with the logged value unconditionally, so statuses are
non-decreasing provided every logged status is at least every current
tile status; under that hypothesis the updated status of any tile is at
least its previous status. -/
theorem updateStatus_mono (tiles : List Tile) (obs : List (ℤ × ℤ))
    (h : ∀ p ∈ obs, ∀ t ∈ tiles, t.status ≤ p.2)
    (i : ℕ) (t t2 : Tile) (ht : tiles.get? i = some t)
    (ht2 : (updateStatus tiles obs).get? i = some t2) :
    t.status ≤ t2.status := by
  rw [updateStatus_get?, ht] at ht2
  simp only [Option.map_some'] at ht2
  have ht2' := Option.some_inj.mp ht2
  rcases finalStatus_mem t.tileID t.status obs with he | ⟨p, hp, he⟩
  · rw [← ht2']
    exact le_of_eq he.symm
  · rw [← ht2']
    exact le_of_le_of_eq (h p hp t (List.get?_mem ht)) he.symm

/-- Witness for the amended C3 at a concrete input: one tile of status
0, one logged entry of status 3. -/
theorem updateStatus_mono_witness :
    ([tileDark 0].get? 0 = some (tileDark 0)) ∧
    ((updateStatus [tileDark 0] [(1, 3)]).get? 0 = some (tileDark 3)) ∧
    (tileDark 0).status ≤ (tileDark 3).status :=
  ⟨rfl, rfl,
    updateStatus_mono [tileDark 0] [(1, 3)]
      (by
        intro p hp t ht
        simp only [List.mem_singleton] at hp ht
        rw [hp, ht]
        decide)
      0 (tileDark 0) (tileDark 3) rfl rfl⟩

/-- Helper: the wrap step sends any value of `[-360, 720]` into
`[0, 360]`. -/
lemma wrapLST_mem (x : ℚ) (h1 : -360 ≤ x) (h2 : x ≤ 720) :
    0 ≤ wrapLST x ∧ wrapLST x ≤ 360 := by
  unfold wrapLST
  split_ifs <;> constructor <;> linarith

/-- C8 counterexample: a tile with RA 345 and hour angle 0 gets
`LSTmax = wrap(345 + 0 + 15) = 360`, which is not inside `[0, 360)`:
the wrap only subtracts 360 from values strictly above 360. -/
theorem tileLSTmax_eq_360 :
    tileLSTmax 345 0 = 360 ∧ ¬ tileLSTmax 345 0 < 360 := by
  norm_num [tileLSTmax, wrapLST]

/-- C8 amended: for every retained tile whose unwrapped bounds lie in
`[-360, 720]`, the derived `LSTmin` and `LSTmax` lie in the closed
interval `[0, 360]`; the right endpoint 360 is attained, so the interval
cannot be sharpened to `[0, 360)`. -/
theorem tileLST_bounds (ra ha : ℚ)
    (h1 : -360 ≤ ra + ha - 15) (h2 : ra + ha + 15 ≤ 720) :
    0 ≤ tileLSTmin ra ha ∧ tileLSTmin ra ha ≤ 360 ∧
    0 ≤ tileLSTmax ra ha ∧ tileLSTmax ra ha ≤ 360 := by
  have hmin := wrapLST_mem (ra + ha - 15) h1 (by linarith)
  have hmax := wrapLST_mem (ra + ha + 15) (by linarith) h2
  exact ⟨hmin.1, hmin.2, hmax.1, hmax.2⟩

/-- Witness for the amended C8 at RA 345, hour angle 0. -/
theorem tileLST_bounds_witness :
    0 ≤ tileLSTmin 345 0 ∧ tileLSTmin 345 0 ≤ 360 ∧
    0 ≤ tileLSTmax 345 0 ∧ tileLSTmax 345 0 ≤ 360 :=
  tileLST_bounds 345 0 (by norm_num) (by norm_num)

/-- C10: `isItDark` returns DARK exactly when the queried LST lies
strictly inside a dark interval both of whose bounds are strictly
positive (given that the `moonUp` fallback is never DARK, as
`getDarkTimes` only ever sets GREY or BRIGHT); consequently a first dark
window whose begin bound is exactly 0.0 is treated as absent, and with
no second window the result is never DARK. -/
theorem isItDark_strict_positive_windows (s : PlanState) (lst : ℚ)
    (h : s.moonUp ≠ Brightness.DARK) :
    (isItDark s lst = Brightness.DARK ↔
      (0 < s.LST_dark1_begin ∧ s.LST_dark1_begin < lst ∧
       0 < s.LST_dark1_end ∧ lst < s.LST_dark1_end) ∨
      (0 < s.LST_dark2_begin ∧ s.LST_dark2_begin < lst ∧
       0 < s.LST_dark2_end ∧ lst < s.LST_dark2_end)) ∧
    (s.LST_dark1_begin = 0 → s.LST_dark2_begin ≤ 0 →
      isItDark s lst ≠ Brightness.DARK) := by
  constructor
  · unfold isItDark
    split_ifs with hc
    · exact iff_of_true rfl hc
    · exact iff_of_false h hc
  · intro h0 h2
    unfold isItDark
    split_ifs with hc
    · exfalso
      rcases hc with ⟨a, -, -, -⟩ | ⟨a, -, -, -⟩
      · rw [h0] at a
        exact lt_irrefl 0 a
      · exact absurd a (not_lt.mpr h2)
    · exact h

/-- Witness for C10: a state whose first window begins at exactly 0 and
whose second window is absent never reports DARK, here at LST 50, a
value strictly between the bounds 0 and 100 of the first window. -/
theorem isItDark_strict_positive_windows_witness :
    isItDark
      { moonUp := Brightness.GREY, LST_dark1_begin := 0, LST_dark1_end := 100,
        LST_dark2_begin := -1, LST_dark2_end := -1,
        LST_dark_begin := none, LST_dark_end := none } 50 ≠ Brightness.DARK :=
  (isItDark_strict_positive_windows _ 50 (by decide)).2 rfl (by norm_num)

/-- C1 evaluation at a failing input: a night where the moon neither
rises nor sets (`MJDmoonrise = MJDmoonset = -1`), with evening twilight
at MJD 100 and morning twilight at MJD 101, taking `mjd2lst` to be the
identity and starting from a state whose first dark interval is
`[5, 10]`.  The claim asks for `LST_dark1_begin = mjd2lst 100` and
`LST_dark1_end = mjd2lst 101`; the code instead writes the dynamically
created attributes `LST_dark_begin` and `LST_dark_end` and leaves the
first interval stale at `[5, 10]`. -/
theorem getDarkTimes_moon_absent_stale :
    getDarkTimes id (fun _ _ _ => (0, 0))
      { initialPlanState with LST_dark1_begin := 5, LST_dark1_end := 10 }
      { MJDmoonrise := -1, MJDmoonset := -1, MJDetwi := 100, MJDmtwi := 101,
        MJDmidnight := 100.5, MoonRA := 0, MoonDEC := 0, MoonFrac := 0 } =
      { moonUp := Brightness.GREY, LST_dark1_begin := 5, LST_dark1_end := 10,
        LST_dark2_begin := -1, LST_dark2_end := -1,
        LST_dark_begin := some 100, LST_dark_end := some 101 } ∧
    (5 : ℚ) ≠ 100 := by
  constructor
  · norm_num [getDarkTimes, initialPlanState, id]
  · norm_num

/-- C2 evaluation at a failing input: the moon sets during the night
but never rises (`MJDmoonrise = -1`, `MJDmoonset = 0.5` before morning
twilight `MJDmtwi = 0.8`), with `mjd2lst` the identity and the freshly
constructed state.  The claim asks for the dark window
`[mjd2lst MJDmoonset, mjd2lst MJDmtwi] = [0.5, 0.8]`; but the branch
guarded by `MJDmoonrise < 0.0 and MJDmoonrise > 0.0` is unsatisfiable,
so control reaches the final `else` and the first dark interval stays
at the `-1` sentinel. -/
theorem getDarkTimes_moonset_only_dead_branch :
    getDarkTimes id (fun _ _ _ => (0, 0)) initialPlanState
      { MJDmoonrise := -1, MJDmoonset := 0.5, MJDetwi := 0.2, MJDmtwi := 0.8,
        MJDmidnight := 0.5, MoonRA := 0, MoonDEC := 0, MoonFrac := 0 } =
      { moonUp := Brightness.GREY, LST_dark1_begin := -1, LST_dark1_end := -1,
        LST_dark2_begin := -1, LST_dark2_end := -1,
        LST_dark_begin := some 0.2, LST_dark_end := some 0.8 } ∧
    (-1 : ℚ) ≠ 0.5 := by
  constructor
  · norm_num [getDarkTimes, initialPlanState, id]
  · norm_num

/-- Membership in the produced plan: a tile value occurs in the sorted
plan exactly when it occurs in the updated catalog and satisfies the
selection condition against the freshly computed dark-window state
(sorting permutes the filtered list, so membership is unchanged). -/
lemma afternoonPlan_mem_plan (mjd2lst : ℚ → ℚ)
    (radec2altaz : ℚ → ℚ → ℚ → ℚ × ℚ) (s : PlanState) (tiles : List Tile)
    (d : DayStats) (obs : List (ℤ × ℤ)) (t : Tile) :
    t ∈ (afternoonPlan mjd2lst radec2altaz s tiles d obs).plan ↔
      t ∈ updateStatus tiles obs ∧
        planCond (getDarkTimes mjd2lst radec2altaz s d) t := by
  show t ∈ ((updateStatus tiles obs).filter fun u =>
      decide (planCond (getDarkTimes mjd2lst radec2altaz s d) u)).mergeSort
      (fun a b => decide (b.priority ≤ a.priority)) ↔ _
  rw [List.Perm.mem_iff (List.mergeSort_perm _ _), List.mem_filter,
    decide_eq_true_iff]

/-- Sample night statistics: the moon rises at MJD 5 after evening
twilight (MJD 2) and sets at MJD 9 after morning twilight (MJD 8), so
with `mjd2lst` the identity the night has the single dark interval
`[2, 5]`, and the moon altitude 0 at midnight makes the rest GREY. -/
def sampleDay : DayStats where
  MJDmoonrise := 5
  MJDmoonset := 9
  MJDetwi := 2
  MJDmtwi := 8
  MJDmidnight := 5
  MoonRA := 0
  MoonDEC := 0
  MoonFrac := 1/2

/-- C4: in every plan produced by `afternoonPlan`, each tile has status
below 2; among updated tiles of status below 2, a DARK-program tile is
in the plan exactly when `isItDark` is DARK at both of its boundary
LSTs, and a non-DARK-program tile is in the plan exactly when at least
one of its boundary LSTs is not DARK. -/
theorem afternoonPlan_eligibility (mjd2lst : ℚ → ℚ)
    (radec2altaz : ℚ → ℚ → ℚ → ℚ × ℚ) (s : PlanState) (tiles : List Tile)
    (d : DayStats) (obs : List (ℤ × ℤ)) :
    (∀ t ∈ (afternoonPlan mjd2lst radec2altaz s tiles d obs).plan,
      t.status < 2) ∧
    (∀ t ∈ updateStatus tiles obs, t.status < 2 → t.program = "DARK" →
      (t ∈ (afternoonPlan mjd2lst radec2altaz s tiles d obs).plan ↔
        (isItDark (afternoonPlan mjd2lst radec2altaz s tiles d obs).state
            t.LSTmin = Brightness.DARK ∧
         isItDark (afternoonPlan mjd2lst radec2altaz s tiles d obs).state
            t.LSTmax = Brightness.DARK))) ∧
    (∀ t ∈ updateStatus tiles obs, t.status < 2 → t.program ≠ "DARK" →
      (t ∈ (afternoonPlan mjd2lst radec2altaz s tiles d obs).plan ↔
        (isItDark (afternoonPlan mjd2lst radec2altaz s tiles d obs).state
            t.LSTmin ≠ Brightness.DARK ∨
         isItDark (afternoonPlan mjd2lst radec2altaz s tiles d obs).state
            t.LSTmax ≠ Brightness.DARK))) := by
  have hstate : (afternoonPlan mjd2lst radec2altaz s tiles d obs).state
      = getDarkTimes mjd2lst radec2altaz s d := rfl
  have hmem := afternoonPlan_mem_plan mjd2lst radec2altaz s tiles d obs
  refine ⟨?_, ?_, ?_⟩
  · intro t ht
    exact ((hmem t).mp ht).2.1
  · intro t ht hst hprog
    rw [hmem t, hstate]
    unfold planCond
    constructor
    · rintro ⟨-, -, ⟨hd1, hd2, -⟩ | ⟨-, hnp⟩⟩
      · exact ⟨hd1, hd2⟩
      · exact absurd hprog hnp
    · rintro ⟨hd1, hd2⟩
      exact ⟨ht, hst, Or.inl ⟨hd1, hd2, hprog⟩⟩
  · intro t ht hst hprog
    rw [hmem t, hstate]
    unfold planCond
    constructor
    · rintro ⟨-, -, ⟨-, -, hp⟩ | ⟨hn, -⟩⟩
      · exact absurd hp hprog
      · exact hn
    · intro hn
      exact ⟨ht, hst, Or.inr ⟨hn, hprog⟩⟩

/-- Witness for C4: on the sample night the dark interval is `[2, 5]`,
and the DARK-program tile with boundary LSTs 3 and 4 (both DARK) is in
the produced plan. -/
theorem afternoonPlan_eligibility_witness :
    tileDark 0 ∈ (afternoonPlan id (fun _ _ _ => (0, 0)) initialPlanState
      [tileDark 0] sampleDay []).plan :=
  ((afternoonPlan_eligibility id (fun _ _ _ => (0, 0)) initialPlanState
      [tileDark 0] sampleDay []).2.1 (tileDark 0)
    (by simp [updateStatus]) (by decide) rfl).mpr
    ⟨by norm_num [afternoonPlan, getDarkTimes, isItDark, initialPlanState,
        sampleDay, tileDark],
     by norm_num [afternoonPlan, getDarkTimes, isItDark, initialPlanState,
        sampleDay, tileDark]⟩

/-- C7: generate-mode construction fails exactly when the date range is
not strictly positive or the rounded steps-per-day does not reconstruct
one day within the `np.allclose` tolerance; the date-range error is
checked first, and on success no error value exists. -/
theorem weatherInit_error_iff (start_date stop_date : ℤ) (time_step : ℚ) :
    ((∃ e, weatherInit start_date stop_date time_step = Except.error e) ↔
      (stop_date - start_date ≤ 0 ∨
       ¬ |((round (1 / time_step) : ℤ) : ℚ) * time_step - 1| ≤ allcloseTol)) ∧
    (weatherInit start_date stop_date time_step =
        Except.error WeatherInitError.badDateRange ↔
      stop_date - start_date ≤ 0) ∧
    (weatherInit start_date stop_date time_step =
        Except.error WeatherInitError.badTimeStep ↔
      (0 < stop_date - start_date ∧
       ¬ |((round (1 / time_step) : ℤ) : ℚ) * time_step - 1| ≤ allcloseTol)) := by
  have key : weatherInit start_date stop_date time_step =
      if stop_date - start_date ≤ 0 then Except.error WeatherInitError.badDateRange
      else if ¬ |((round (1 / time_step) : ℤ) : ℚ) * time_step - 1| ≤ allcloseTol
        then Except.error WeatherInitError.badTimeStep
        else Except.ok (stop_date - start_date, round (1 / time_step)) := rfl
  rw [key]
  by_cases h1 : stop_date - start_date ≤ 0
  · rw [if_pos h1]
    refine ⟨iff_of_true ⟨_, rfl⟩ (Or.inl h1), iff_of_true rfl h1,
      iff_of_false ?_ ?_⟩
    · intro hcontr
      exact WeatherInitError.noConfusion (Except.error.inj hcontr)
    · rintro ⟨hlt, -⟩
      omega
  · rw [if_neg h1]
    by_cases h2 : |((round (1 / time_step) : ℤ) : ℚ) * time_step - 1| ≤ allcloseTol
    · rw [if_neg (not_not_intro h2)]
      refine ⟨iff_of_false ?_ ?_, iff_of_false ?_ ?_, iff_of_false ?_ ?_⟩
      · rintro ⟨e, he⟩
        exact Except.noConfusion he
      · rintro (ha | hb)
        · exact h1 ha
        · exact hb h2
      · intro he
        exact Except.noConfusion he
      · exact h1
      · intro he
        exact Except.noConfusion he
      · intro hab
        exact hab.2 h2
    · rw [if_pos h2]
      refine ⟨iff_of_true ⟨_, rfl⟩ (Or.inr h2),
        iff_of_false ?_ h1, iff_of_true rfl ⟨by omega, h2⟩⟩
      intro he
      exact WeatherInitError.noConfusion (Except.error.inj he)

/-- C9: when the computed offset equals exactly the table length, the
range check of `Weather.get` passes (it only rejects offsets below 0 or
strictly above the length), yet the subsequent row lookup is one
position past the end of the table and yields no row: the lookup is not
total over the offsets the check admits. -/
theorem weatherGet_admits_length (table : List WRow) (steps : ℤ) (t : ℚ)
    (h : weatherOffset (tableMJD0 table) steps t = table.length) :
    ¬ (weatherOffset (tableMJD0 table) steps t < 0 ∨
       weatherOffset (tableMJD0 table) steps t > table.length) ∧
    weatherGet table steps t = Except.ok none := by
  have hc : ¬ (weatherOffset (tableMJD0 table) steps t < 0 ∨
      weatherOffset (tableMJD0 table) steps t > table.length) := by
    rw [h]
    omega
  refine ⟨hc, ?_⟩
  have hc2 : ¬ ((table.length : ℤ) < 0 ∨ (table.length : ℤ) > table.length) := by
    omega
  simp only [weatherGet, h, if_neg hc2, Int.toNat_natCast]
  exact congrArg Except.ok (List.get?_eq_none.mpr le_rfl)

/-- Sample weather row at MJD 0 with dome open. -/
def sampleRow : WRow where
  mjd := 0
  isOpen := true
  seeing := 0
  transparency := 0

/-- Witness for C9: a one-row table queried one full step past its
single sample has offset 1 = length, passes the range check and
produces no row. -/
theorem weatherGet_admits_length_witness :
    ¬ (weatherOffset (tableMJD0 [sampleRow]) 1 1 < 0 ∨
       weatherOffset (tableMJD0 [sampleRow]) 1 1 > 1) ∧
    weatherGet [sampleRow] 1 1 = Except.ok none :=
  weatherGet_admits_length [sampleRow] 1 1
    (by norm_num [weatherOffset, tableMJD0, sampleRow])

/-- C5 counterexample: for the one-row table with `mjd = 0` and one
step per day, the query at `t = 1` has offset 1, inside the accepted
interval `[0, len(table)]`, so no range error is raised; but there is
no tabulated row at index 1 (`get? 1 = none`), so the call does not
return the tabulated row at the computed index. -/
theorem weatherGet_no_row_at_length :
    weatherGet [sampleRow] 1 1 = Except.ok none ∧
    ([sampleRow].get? 1 = none) ∧
    ¬ (weatherOffset 0 1 1 < 0 ∨ weatherOffset 0 1 1 > 1) := by
  refine ⟨?_, rfl, ?_⟩
  · norm_num [weatherGet, weatherOffset, tableMJD0, sampleRow]
  · norm_num [weatherOffset]

/-- Sample weather row at MJD 1/2 with dome open, the second sample of
a two-steps-per-day table starting at MJD 0. -/
def sampleRow2 : WRow where
  mjd := 1/2
  isOpen := true
  seeing := 0
  transparency := 0

/-- C5 amended: `Weather.get` raises its range error exactly when the
computed offset falls outside `[0, len(table)]`; when the offset is a
valid row index (strictly below the length) the tabulated row at that
index is returned with no interpolation, and in particular a query
within half a time step of a tabulated `mjd` returns the row carrying
that `mjd`; a batch of query times errors exactly when some one of them
has an out-of-range offset and otherwise returns the parallel batch of
lookups.  The amendment: at an offset equal to exactly `len(table)` the
range check passes but no tabulated row exists at that index, so
"otherwise returns the row at the index" holds only for offsets
strictly below the length. -/
theorem weatherGet_nearest_row (table : List WRow) (steps : ℤ) (t : ℚ)
    (ts : List ℚ) :
    (weatherGet table steps t = Except.error () ↔
      (weatherOffset (tableMJD0 table) steps t < 0 ∨
       weatherOffset (tableMJD0 table) steps t > table.length)) ∧
    (∀ k : ℕ, ∀ hk : k < table.length,
      weatherOffset (tableMJD0 table) steps t = k →
      weatherGet table steps t = Except.ok (some (table.get ⟨k, hk⟩))) ∧
    (∀ k : ℕ, ∀ hk : k < table.length, 0 < steps →
      (table.get ⟨k, hk⟩).mjd = tableMJD0 table + (k : ℚ) / (steps : ℚ) →
      |t - (table.get ⟨k, hk⟩).mjd| * (steps : ℚ) < 1/2 →
      weatherGet table steps t = Except.ok (some (table.get ⟨k, hk⟩))) ∧
    (weatherGetMany table steps ts = Except.error () ↔
      ∃ u ∈ ts, weatherOffset (tableMJD0 table) steps u < 0 ∨
        weatherOffset (tableMJD0 table) steps u > table.length) ∧
    (weatherGetMany table steps ts ≠ Except.error () →
      weatherGetMany table steps ts = Except.ok (ts.map fun u =>
        table.get? (weatherOffset (tableMJD0 table) steps u).toNat)) := by
  have keyg : ∀ u : ℚ, weatherGet table steps u =
      if weatherOffset (tableMJD0 table) steps u < 0 ∨
          weatherOffset (tableMJD0 table) steps u > table.length
      then Except.error ()
      else Except.ok (table.get? (weatherOffset (tableMJD0 table) steps u).toNat) :=
    fun _ => rfl
  have keym : weatherGetMany table steps ts =
      if ts.any (fun u =>
          decide (weatherOffset (tableMJD0 table) steps u < 0) ||
          decide (weatherOffset (tableMJD0 table) steps u > table.length))
      then Except.error ()
      else Except.ok (ts.map fun u =>
        table.get? (weatherOffset (tableMJD0 table) steps u).toNat) := rfl
  have hrow : ∀ (k : ℕ) (hk : k < table.length),
      weatherOffset (tableMJD0 table) steps t = k →
      weatherGet table steps t = Except.ok (some (table.get ⟨k, hk⟩)) := by
    intro k hk hoff
    have hc : ¬ ((k : ℤ) < 0 ∨ (k : ℤ) > table.length) := by omega
    rw [keyg t, hoff, if_neg hc, Int.toNat_natCast, List.get?_eq_get hk]
  refine ⟨?_, hrow, ?_, ?_, ?_⟩
  · rw [keyg t]
    split_ifs with hc
    · exact iff_of_true rfl hc
    · exact iff_of_false not_false hc
  · intro k hk hsteps hmjd habs
    apply hrow k hk
    have hspos : (0 : ℚ) < (steps : ℚ) := by exact_mod_cast hsteps
    rw [hmjd] at habs
    have habs2 : |(t - (tableMJD0 table + (k : ℚ) / (steps : ℚ))) * (steps : ℚ)|
        < 1/2 := by
      rw [abs_mul, abs_of_pos hspos]
      exact habs
    have h12 := abs_lt.mp habs2
    have hcancel : ((k : ℚ) / (steps : ℚ)) * (steps : ℚ) = (k : ℚ) :=
      div_mul_cancel₀ _ (ne_of_gt hspos)
    have hexp : (t - tableMJD0 table) * (steps : ℚ) + 1/2 =
        (t - (tableMJD0 table + (k : ℚ) / (steps : ℚ))) * (steps : ℚ)
          + ((k : ℚ) + 1/2) := by
      have hr : (t - (tableMJD0 table + (k : ℚ) / (steps : ℚ))) * (steps : ℚ) =
          (t - tableMJD0 table) * (steps : ℚ)
            - ((k : ℚ) / (steps : ℚ)) * (steps : ℚ) := by
        ring
      rw [hr, hcancel]
      ring
    unfold weatherOffset
    rw [hexp, Int.floor_eq_iff]
    constructor
    · push_cast
      linarith [h12.1]
    · push_cast
      linarith [h12.2]
  · rw [keym]
    split_ifs with hb
    · refine iff_of_true rfl ?_
      simpa using hb
    · refine iff_of_false not_false ?_
      simpa using hb
  · rw [keym]
    split_ifs with hb
    · intro hne
      exact absurd rfl hne
    · intro _
      rfl

/-- Witness for the amended C5: two samples half a day apart, queried
at `t = 0.6`, within half a time step of the second sample at MJD 0.5;
the second row is returned. -/
theorem weatherGet_nearest_row_witness :
    weatherGet [sampleRow, sampleRow2] 2 (3/5) = Except.ok (some sampleRow2) := by
  have h := (weatherGet_nearest_row [sampleRow, sampleRow2] 2 (3/5) []).2.2.1
    1 (by norm_num) (by norm_num)
  refine h ?_ ?_
  · show sampleRow2.mjd = tableMJD0 [sampleRow, sampleRow2] + (1 : ℚ) / ((2 : ℤ) : ℚ)
    norm_num [sampleRow, sampleRow2, tableMJD0]
  · show |(3/5 : ℚ) - sampleRow2.mjd| * ((2 : ℤ) : ℚ) < 1/2
    rw [show (3/5 : ℚ) - sampleRow2.mjd = 1/10 from by norm_num [sampleRow2]]
    rw [abs_of_pos (by norm_num)]
    norm_num

end Surveysim
